import Mathlib

/-!
Verification of the release-notes script `.github/scripts/generate_release_notes.py`.

The script is sequential glue code: read configuration from the environment,
run `git log` between two tags, parse the delimited output into commit
records, ask a remote model for release notes, and fall back to a
deterministic bullet list when the remote call fails.

The embedding below translates the pure parts of the script directly:

* `get_commits_cmd` is the argument list built by `get_commits` (the
  subprocess call itself is external; only the command construction is pure);
* `parse_commits` is `parse_commits`, working on `List Char` internally:
  `splitOnSentinel` is Python `raw.split("|||")`, `split2` is
  `block.split("|", 2)`, `trimChars` is `str.strip()` (ASCII whitespace);
* `aiNotes` is the tail of `generate_release_notes_with_ai` after the HTTP
  response content has been extracted (the extracted text is a parameter);
* `fallbackNotes` is the fallback branch of `main`;
* `mainRun` is `main`, with the raw `git log` output and the outcome of the
  remote call (`some text` on success, `none` on any exception) as
  parameters.
-/

/-- A parsed commit: the dict `{"hash": ..., "subject": ..., "body": ...}`
built by `parse_commits`. -/
structure Commit where
  hash : String
  subject : String
  body : String
deriving DecidableEq

/-- ASCII approximation of Python `str.strip()` whitespace:
space, tab, newline, carriage return, vertical tab, form feed. -/
def pyIsSpace (c : Char) : Bool :=
  c == ' ' || c == '\t' || c == '\n' || c == '\r' || c == '\x0b' || c == '\x0c'

/-- Python `s.strip()` on the character list: drop whitespace from both ends. -/
def trimChars (cs : List Char) : List Char :=
  ((cs.dropWhile pyIsSpace).reverse.dropWhile pyIsSpace).reverse

/-- Python `s.startswith(pat)`: does `s` begin with the characters of `pat`? -/
def pyStartsWith : List Char → List Char → Bool
  | [], _ => true
  | _ :: _, [] => false
  | p :: ps, c :: cs => if p = c then pyStartsWith ps cs else false

/-- The characters of the literal word checked by `subject.startswith("Merge")`. -/
def mergeWord : List Char := ['M', 'e', 'r', 'g', 'e']

/-- Split at the first `'|'`: `some (before, after)` when a pipe occurs,
`none` otherwise.  Helper for Python `block.split("|", 2)`. -/
def splitFirstPipe : List Char → Option (List Char × List Char)
  | [] => none
  | c :: cs =>
    if c = '|' then some ([], cs)
    else
      match splitFirstPipe cs with
      | none => none
      | some (pre, post) => some (c :: pre, post)

/-- Python `block.split("|", 2)`: at most two splits, the remainder is kept
verbatim as the last field.  Always returns one, two, or three fields. -/
def split2 (s : List Char) : List (List Char) :=
  match splitFirstPipe s with
  | none => [s]
  | some (a, rest) =>
    match splitFirstPipe rest with
    | none => [a, rest]
    | some (b, rest2) => [a, b, rest2]

/-- Python `raw.split("|||")`: leftmost, non-overlapping occurrences of the
three-pipe sentinel delimit the blocks; the accumulator holds the current
block reversed. -/
def splitSentinelAux : List Char → List Char → List (List Char)
  | [], acc => [acc.reverse]
  | '|' :: '|' :: '|' :: rest, acc => acc.reverse :: splitSentinelAux rest []
  | c :: rest, acc => splitSentinelAux rest (c :: acc)

/-- Python `raw.split("|||")`. -/
def splitOnSentinel (cs : List Char) : List (List Char) :=
  splitSentinelAux cs []

/-- The body of the `for commit_block in raw_commits.split("|||")` loop of
`parse_commits`: strip the block, skip it when empty, split on `"|"` with
at most two splits, require at least two fields, strip each field, and skip
merge commits (`subject.startswith("Merge")`). -/
def parseBlockL (block : List Char) : Option Commit :=
  if trimChars block = [] then none
  else
    match split2 (trimChars block) with
    | p0 :: p1 :: rest =>
      if pyStartsWith mergeWord (trimChars p1) then none
      else
        some { hash := String.mk (trimChars p0),
               subject := String.mk (trimChars p1),
               body := String.mk (trimChars (rest.headD [])) }
    | _ => none

/-- `parse_commits`: split the raw `git log` output on `"|||"` and keep the
blocks that yield a commit record, in input order. -/
def parse_commits (raw : String) : List Commit :=
  (splitOnSentinel raw.data).filterMap parseBlockL

/-- Python truthiness test `not s` for an optional environment string:
true for a missing variable and for the empty string. -/
def pyFalsy : Option String → Bool
  | none => true
  | some s => decide (s = (""))

/-- The argument list built by `get_commits`: range `prev..current` when a
previous tag is given (and truthy), otherwise just `current`, with the
pipe-and-sentinel log format. -/
def get_commits_cmd (prevTag : Option String) (currentTag : String) : List String :=
  if pyFalsy prevTag then
    [("git"), ("log"), ("--pretty=format:%h|%s|%b|||"), currentTag]
  else
    [("git"), ("log"), ("--pretty=format:%h|%s|%b|||"),
      (prevTag.getD ("")) ++ (("..")) ++ currentTag]

/-- Tail of `generate_release_notes_with_ai` after the HTTP call: the
extracted `choices[0].message.content` is stripped and, when a previous tag
exists, the comparison footer (with a `---` horizontal rule) is appended. -/
def aiNotes (aiText : String) (prevTag : Option String) (repo currentTag : String) : String :=
  match prevTag with
  | some pre =>
    String.mk (trimChars aiText.data)
      ++ "\n\n---\n\n**Full Changelog**: https://github.com/" ++ repo
      ++ "/compare/" ++ pre ++ "..." ++ currentTag
  | none => String.mk (trimChars aiText.data)

/-- The bullet list built in the `except` branch of `main`:
`"## Changes\n\n"` followed by `"- <subject>\n"` per commit. -/
def changesList (commits : List Commit) : String :=
  commits.foldl (fun acc c => acc ++ "- " ++ c.subject ++ "\n") ("## Changes\n\n")

/-- The fallback release notes of `main`: the bullet list, plus the
comparison footer (without a horizontal rule) when a previous tag exists. -/
def fallbackNotes (commits : List Commit) (prevTag : Option String) (repo currentTag : String) : String :=
  match prevTag with
  | some pre =>
    changesList commits
      ++ "\n\n**Full Changelog**: https://github.com/" ++ repo
      ++ "/compare/" ++ pre ++ "..." ++ currentTag
  | none => changesList commits

/-- The process environment read by `main`: each field is `none` when the
variable is unset. -/
structure Env where
  CURRENT_TAG : Option String
  PREV_TAG : Option String
  GITHUB_REPOSITORY : Option String
  OPENROUTER_API_KEY : Option String
  AI_MODEL : Option String

/-- Outcome of a run of `main`: `exitErr msg` is `sys.exit(1)` after printing
`msg` to standard error (no standard output); `output s` is `print(s)` with
exit code `0`. -/
inductive RunResult where
  | exitErr : String → RunResult
  | output : String → RunResult
deriving DecidableEq

/-- `prev_tag = os.environ.get("PREV_TAG", "").strip()` followed by
`prev_tag if prev_tag else None`. -/
def prevOf (env : Env) : Option String :=
  if trimChars ((env.PREV_TAG.getD ("")).data) = [] then none
  else some (String.mk (trimChars ((env.PREV_TAG.getD ("")).data)))

/-- `main`, with the raw `git log` output and the outcome of the remote
generation call (`some text` when it returns, `none` when any exception is
raised) supplied as parameters. -/
def mainRun (env : Env) (rawCommits : String) (aiResult : Option String) : RunResult :=
  if pyFalsy env.CURRENT_TAG then
    RunResult.exitErr ("Error: CURRENT_TAG environment variable is required")
  else if pyFalsy env.GITHUB_REPOSITORY then
    RunResult.exitErr ("Error: GITHUB_REPOSITORY environment variable is required")
  else if pyFalsy env.OPENROUTER_API_KEY then
    RunResult.exitErr ("Error: OPENROUTER_API_KEY environment variable is required")
  else
    let currentTag := env.CURRENT_TAG.getD ("")
    let repo := env.GITHUB_REPOSITORY.getD ("")
    let commits := parse_commits rawCommits
    if commits = [] then RunResult.output (("Release ") ++ currentTag)
    else
      match aiResult with
      | some aiText => RunResult.output (aiNotes aiText (prevOf env) repo currentTag)
      | none => RunResult.output (fallbackNotes commits (prevOf env) repo currentTag)

/-- Substring occurrence on character lists: `pat` occurs contiguously in the
second argument. -/
def hasSub (pat : List Char) : List Char → Bool
  | [] => pyStartsWith pat []
  | c :: cs => pyStartsWith pat (c :: cs) || hasSub pat cs

/-- `pat in s` for strings: `pat` occurs contiguously in `s`. -/
def strContains (s pat : String) : Bool :=
  hasSub pat.data s.data

/-- A block is well-formed in the sense of the parser contract: non-empty
after stripping, and yielding at least two pipe-delimited fields. -/
def validBlock (b : List Char) : Prop :=
  trimChars b ≠ [] ∧ 2 ≤ (split2 (trimChars b)).length

instance (b : List Char) : Decidable (validBlock b) := by
  unfold validBlock; infer_instance

/-- A block whose (stripped) subject field starts with `"Merge"`. -/
def isMergeBlock (b : List Char) : Bool :=
  match split2 (trimChars b) with
  | _ :: p1 :: _ => pyStartsWith mergeWord (trimChars p1)
  | _ => false

/-- The commit record a well-formed block yields. -/
def recordOfBlock (b : List Char) : Commit :=
  match split2 (trimChars b) with
  | p0 :: p1 :: rest =>
    { hash := String.mk (trimChars p0),
      subject := String.mk (trimChars p1),
      body := String.mk (trimChars (rest.headD [])) }
  | _ => { hash := (""), subject := (""), body := ("") }

/-- Environment of the end-to-end scenario: tags `v1.0.0` → `v1.1.0`. -/
def envC1 : Env :=
  { CURRENT_TAG := some ("v1.1.0"), PREV_TAG := some ("v1.0.0"),
    GITHUB_REPOSITORY := some ("niklas-heer/tdx"),
    OPENROUTER_API_KEY := some ("test-key"), AI_MODEL := none }

/-- Raw `git log` output of the end-to-end scenario: the two commits
`("abc123", "Add dark mode", "- New theme\n- Toggle in settings")` and
`("def456", "Merge pull request #4", "")`. -/
def rawC1 : String :=
  "abc123|Add dark mode|- New theme\n- Toggle in settings|||def456|Merge pull request #4|"

/-- Environment with no previous tag. -/
def envC3 : Env :=
  { CURRENT_TAG := some ("v1.0.0"), PREV_TAG := none,
    GITHUB_REPOSITORY := some ("niklas-heer/tdx"),
    OPENROUTER_API_KEY := some ("test-key"), AI_MODEL := none }

/-- One commit whose subject itself mentions the changelog. -/
def rawC3 : String := "abc|See the Full Changelog|"

/-- Raw blob of three commits with hashes, subjects and bodies. -/
def rawC4 : String :=
  "h1|Fix crash on empty file|b1|||h2|Add export command|b2|||h3|Update documentation|b3"

/-- Raw blob of three well-formed blocks, the middle one a merge commit. -/
def rawC5 : String := "a1|Add one|x|||m1|Merge branch dev|x|||a2|Add two|x"

/-- Environment with a previous tag present, for the empty-commits branch. -/
def envC6 : Env :=
  { CURRENT_TAG := some ("v2.0.0"), PREV_TAG := some ("v1.9.0"),
    GITHUB_REPOSITORY := some ("niklas-heer/tdx"),
    OPENROUTER_API_KEY := some ("test-key"), AI_MODEL := none }

/-- Environment with all variables unset. -/
def envNone : Env :=
  { CURRENT_TAG := none, PREV_TAG := none, GITHUB_REPOSITORY := none,
    OPENROUTER_API_KEY := none, AI_MODEL := none }

/-- A record produced by the parser never has a subject starting with
`"Merge"`: the guard in the loop body rejects it. -/
theorem parseBlockL_merge_false {b : List Char} {c : Commit}
    (h : parseBlockL b = some c) :
    pyStartsWith mergeWord c.subject.data = false := by
  unfold parseBlockL at h
  by_cases hne : trimChars b = []
  · rw [if_pos hne] at h
    exact absurd h (by simp)
  · rw [if_neg hne] at h
    cases hsp : split2 (trimChars b) with
    | nil => rw [hsp] at h; simp at h
    | cons p0 tl =>
      cases tl with
      | nil => rw [hsp] at h; simp at h
      | cons p1 rest =>
        rw [hsp] at h
        cases hm : pyStartsWith mergeWord (trimChars p1) with
        | true => simp [hm] at h
        | false =>
          simp only [hm, Bool.false_eq_true, if_false, Option.some.injEq] at h
          rw [← h]
          exact hm

/-- On a well-formed block the loop body returns `none` exactly for merge
commits and the expected record otherwise. -/
theorem parseBlockL_eq_of_valid {b : List Char} (hv : validBlock b) :
    parseBlockL b = if isMergeBlock b then none else some (recordOfBlock b) := by
  obtain ⟨hne, hlen⟩ := hv
  unfold parseBlockL isMergeBlock recordOfBlock
  rw [if_neg hne]
  cases hsp : split2 (trimChars b) with
  | nil => rw [hsp] at hlen; simp at hlen
  | cons p0 tl =>
    cases tl with
    | nil => rw [hsp] at hlen; simp at hlen
    | cons p1 rest => rfl

/-- Over any list of well-formed blocks, the parser loop keeps exactly the
non-merge blocks, in order, each mapped to its record. -/
theorem filterMap_parseBlock_eq (bs : List (List Char))
    (hv : ∀ b ∈ bs, validBlock b) :
    bs.filterMap parseBlockL
      = (bs.filter (fun b => ! isMergeBlock b)).map recordOfBlock := by
  induction bs with
  | nil => rfl
  | cons b tl ih =>
    have hb := hv b (List.mem_cons_self b tl)
    have htl : ∀ x ∈ tl, validBlock x := fun x hx => hv x (List.mem_cons_of_mem _ hx)
    rw [List.filterMap_cons, List.filter_cons, parseBlockL_eq_of_valid hb]
    cases hm : isMergeBlock b <;> simp [hm, ih htl]

/-- Counting version of `filterMap_parseBlock_eq`: the parser yields one
record per block, minus the merge blocks. -/
theorem length_filterMap_parseBlock (bs : List (List Char))
    (hv : ∀ b ∈ bs, validBlock b) :
    (bs.filterMap parseBlockL).length
      = bs.length - (bs.filter isMergeBlock).length := by
  induction bs with
  | nil => rfl
  | cons b tl ih =>
    have hb := hv b (List.mem_cons_self b tl)
    have htl : ∀ x ∈ tl, validBlock x := fun x hx => hv x (List.mem_cons_of_mem _ hx)
    have hle := List.length_filter_le isMergeBlock tl
    rw [List.filterMap_cons, List.filter_cons, parseBlockL_eq_of_valid hb]
    cases hm : isMergeBlock b
    · simp [hm, ih htl]
      omega
    · simp [hm, ih htl]

/-- Claim C2: for every input string given to the commit parser, no record
in the returned sequence has a subject that starts with the literal word
`"Merge"`; such records are filtered out before reaching the generator. -/
theorem c2_no_merge_subject (raw : String) (c : Commit)
    (hc : c ∈ parse_commits raw) :
    pyStartsWith mergeWord c.subject.data = false := by
  unfold parse_commits at hc
  rcases List.mem_filterMap.mp hc with ⟨b, _, hb⟩
  exact parseBlockL_merge_false hb

/-- Witness for C2 at a concrete input: the commit parsed from
`"a|Fix bug|"` is in the output and its subject does not start with
`"Merge"`. -/
theorem c2_no_merge_subject_witness :
    ({ hash := ("a"), subject := ("Fix bug"), body := ("") } : Commit)
        ∈ parse_commits (("a|Fix bug|"))
      ∧ pyStartsWith mergeWord (("Fix bug").data) = false :=
  ⟨by decide, c2_no_merge_subject (("a|Fix bug|"))
    { hash := ("a"), subject := ("Fix bug"), body := ("") } (by decide)⟩

/-- Claim C5: for every raw blob whose sentinel-delimited blocks are all
non-empty with at least two pipe-delimited fields, the parser yields the
non-merge blocks' records in input order, hence exactly `N` minus the
number of merge commits records. -/
theorem c5_block_count_order (raw : String)
    (hv : ∀ b ∈ splitOnSentinel raw.data, validBlock b) :
    parse_commits raw
        = ((splitOnSentinel raw.data).filter (fun b => ! isMergeBlock b)).map recordOfBlock
      ∧ (parse_commits raw).length
        = (splitOnSentinel raw.data).length
          - ((splitOnSentinel raw.data).filter isMergeBlock).length := by
  unfold parse_commits
  exact ⟨filterMap_parseBlock_eq _ hv, length_filterMap_parseBlock _ hv⟩

/-- Witness for C5 at a concrete three-block blob with one merge commit. -/
theorem c5_block_count_order_witness :
    parse_commits rawC5
        = ((splitOnSentinel rawC5.data).filter (fun b => ! isMergeBlock b)).map recordOfBlock
      ∧ (parse_commits rawC5).length
        = (splitOnSentinel rawC5.data).length
          - ((splitOnSentinel rawC5.data).filter isMergeBlock).length :=
  c5_block_count_order rawC5 (by decide)

/-- Claim C1 counterexample: in the end-to-end scenario the fallback output
does not contain the `---` horizontal rule the claim expects; the claimed
string is not produced. -/
theorem c1_counterexample :
    mainRun envC1 rawC1 none
      ≠ RunResult.output
          (("## Changes\n\n- Add dark mode\n\n\n---\n\n**Full Changelog**: https://github.com/niklas-heer/tdx/compare/v1.0.0...v1.1.0")) := by
  decide

/-- Claim C1 as amended: parsing drops the merge commit and retains only
`"Add dark mode"`, and on generator failure the output is the fallback
string whose footer follows directly after the bullet list, without a
`---` horizontal rule (the rule appears only on the AI path). -/
theorem c1_amended_fallback_output :
    parse_commits rawC1
        = [{ hash := ("abc123"), subject := ("Add dark mode"),
             body := ("- New theme\n- Toggle in settings") }]
      ∧ mainRun envC1 rawC1 none
        = RunResult.output
            (("## Changes\n\n- Add dark mode\n\n\n**Full Changelog**: https://github.com/niklas-heer/tdx/compare/v1.0.0...v1.1.0")) := by
  decide

/-- Claim C4: when the remote generation call fails (any exception, modelled
by `aiResult = none`) and the commit sequence is non-empty, the run still
succeeds and the output is exactly the deterministic fallback; at a
three-commit input the output lists each subject as `- <subject>` in order
with no hashes or bodies. -/
theorem c4_fallback_on_generator_failure :
    (∀ (env : Env) (raw : String),
        pyFalsy env.CURRENT_TAG = false →
        pyFalsy env.GITHUB_REPOSITORY = false →
        pyFalsy env.OPENROUTER_API_KEY = false →
        parse_commits raw ≠ [] →
        mainRun env raw none
          = RunResult.output
              (fallbackNotes (parse_commits raw) (prevOf env)
                (env.GITHUB_REPOSITORY.getD ("")) (env.CURRENT_TAG.getD (""))))
      ∧ mainRun envC3 rawC4 none
        = RunResult.output
            (("## Changes\n\n- Fix crash on empty file\n- Add export command\n- Update documentation\n")) := by
  constructor
  · intro env raw h1 h2 h3 h4
    simp [mainRun, h1, h2, h3, h4]
  · decide

/-- Witness for C4's universally-quantified part at the three-commit input. -/
theorem c4_fallback_on_generator_failure_witness :
    mainRun envC3 rawC4 none
      = RunResult.output
          (fallbackNotes (parse_commits rawC4) (prevOf envC3)
            (envC3.GITHUB_REPOSITORY.getD ("")) (envC3.CURRENT_TAG.getD (""))) :=
  c4_fallback_on_generator_failure.1 envC3 rawC4 (by decide) (by decide)
    (by decide) (by decide)

/-- Claim C6: whenever the parsed commit sequence is empty, the run outputs
exactly `Release <current_tag>`, for any configuration (previous tag
present or not) and whatever the generator would have returned: the
generator/fallback path is skipped. -/
theorem c6_empty_commits_minimal (env : Env) (raw : String) (ai : Option String)
    (h1 : pyFalsy env.CURRENT_TAG = false)
    (h2 : pyFalsy env.GITHUB_REPOSITORY = false)
    (h3 : pyFalsy env.OPENROUTER_API_KEY = false)
    (hempty : parse_commits raw = []) :
    mainRun env raw ai = RunResult.output (("Release ") ++ env.CURRENT_TAG.getD ("")) := by
  simp [mainRun, h1, h2, h3, hempty]

/-- Witness for C6: empty raw input, previous tag present, generator would
have succeeded — output is still the minimal release line. -/
theorem c6_empty_commits_minimal_witness :
    mainRun envC6 (("")) (some (("AI text")))
      = RunResult.output (("Release ") ++ envC6.CURRENT_TAG.getD ("")) :=
  c6_empty_commits_minimal envC6 (("")) (some (("AI text")))
    (by decide) (by decide) (by decide) (by decide)

/-- A missing environment variable is falsy. -/
theorem pyFalsy_none : pyFalsy none = true := rfl

/-- An environment variable set to the empty string is falsy. -/
theorem pyFalsy_empty : pyFalsy (some ("")) = true := rfl

/-- Claim C7: if any of `CURRENT_TAG`, `GITHUB_REPOSITORY`, or
`OPENROUTER_API_KEY` is missing from the environment, the run exits
non-zero with a diagnostic message and produces no standard output,
whichever combination of variables is missing. -/
theorem c7_missing_env_exit (env : Env) (raw : String) (ai : Option String)
    (h : env.CURRENT_TAG = none ∨ env.GITHUB_REPOSITORY = none
        ∨ env.OPENROUTER_API_KEY = none) :
    ∃ msg, mainRun env raw ai = RunResult.exitErr msg := by
  rcases h with h | h | h
  · exact ⟨("Error: CURRENT_TAG environment variable is required"),
      by simp [mainRun, h, pyFalsy_none]⟩
  · cases hc : pyFalsy env.CURRENT_TAG
    · exact ⟨("Error: GITHUB_REPOSITORY environment variable is required"),
        by simp [mainRun, hc, h, pyFalsy_none]⟩
    · exact ⟨("Error: CURRENT_TAG environment variable is required"),
        by simp [mainRun, hc]⟩
  · cases hc : pyFalsy env.CURRENT_TAG
    · cases hr : pyFalsy env.GITHUB_REPOSITORY
      · exact ⟨("Error: OPENROUTER_API_KEY environment variable is required"),
          by simp [mainRun, hc, hr, h, pyFalsy_none]⟩
      · exact ⟨("Error: GITHUB_REPOSITORY environment variable is required"),
          by simp [mainRun, hc, hr]⟩
    · exact ⟨("Error: CURRENT_TAG environment variable is required"),
        by simp [mainRun, hc]⟩

/-- Witness for C7 with every variable missing. -/
theorem c7_missing_env_exit_witness :
    ∃ msg, mainRun envNone (("")) none = RunResult.exitErr msg :=
  c7_missing_env_exit envNone (("")) none (Or.inl rfl)

/-- Claim C10: a required variable set to the empty string behaves exactly
like an unset one: the run result is identical, and it is a non-zero exit
with no standard output. -/
theorem c10_empty_equals_missing (env : Env) (raw : String) (ai : Option String) :
    (mainRun { env with CURRENT_TAG := some (("")) } raw ai
          = mainRun { env with CURRENT_TAG := none } raw ai
        ∧ ∃ m, mainRun { env with CURRENT_TAG := some (("")) } raw ai
          = RunResult.exitErr m)
      ∧ (mainRun { env with GITHUB_REPOSITORY := some (("")) } raw ai
          = mainRun { env with GITHUB_REPOSITORY := none } raw ai
        ∧ ∃ m, mainRun { env with GITHUB_REPOSITORY := some (("")) } raw ai
          = RunResult.exitErr m)
      ∧ (mainRun { env with OPENROUTER_API_KEY := some (("")) } raw ai
          = mainRun { env with OPENROUTER_API_KEY := none } raw ai
        ∧ ∃ m, mainRun { env with OPENROUTER_API_KEY := some (("")) } raw ai
          = RunResult.exitErr m) := by
  refine ⟨⟨?_, ?_⟩, ⟨?_, ?_⟩, ⟨?_, ?_⟩⟩
  · simp [mainRun, pyFalsy_none, pyFalsy_empty]
  · exact ⟨("Error: CURRENT_TAG environment variable is required"),
      by simp [mainRun, pyFalsy_empty]⟩
  · cases hc : pyFalsy env.CURRENT_TAG <;>
      simp [mainRun, hc, pyFalsy_none, pyFalsy_empty]
  · cases hc : pyFalsy env.CURRENT_TAG
    · exact ⟨("Error: GITHUB_REPOSITORY environment variable is required"),
        by simp [mainRun, hc, pyFalsy_empty]⟩
    · exact ⟨("Error: CURRENT_TAG environment variable is required"),
        by simp [mainRun, hc]⟩
  · cases hc : pyFalsy env.CURRENT_TAG <;>
      cases hr : pyFalsy env.GITHUB_REPOSITORY <;>
        simp [mainRun, hc, hr, pyFalsy_none, pyFalsy_empty]
  · cases hc : pyFalsy env.CURRENT_TAG
    · cases hr : pyFalsy env.GITHUB_REPOSITORY
      · exact ⟨("Error: OPENROUTER_API_KEY environment variable is required"),
          by simp [mainRun, hc, hr, pyFalsy_empty]⟩
      · exact ⟨("Error: GITHUB_REPOSITORY environment variable is required"),
          by simp [mainRun, hc, hr]⟩
    · exact ⟨("Error: CURRENT_TAG environment variable is required"),
        by simp [mainRun, hc]⟩

/-- Claim C8: `get_commits` builds the revision range `prev..current` when a
previous tag is given, and just `current` when it is not, with the
pipe-delimited `--pretty` format terminated by the `|||` sentinel. -/
theorem c8_range_construction (pre cur : String) (hpre : pre ≠ ("")) :
    get_commits_cmd (some pre) cur
        = [("git"), ("log"), ("--pretty=format:%h|%s|%b|||"), pre ++ ("..") ++ cur]
      ∧ get_commits_cmd none cur
        = [("git"), ("log"), ("--pretty=format:%h|%s|%b|||"), cur] := by
  constructor
  · simp [get_commits_cmd, pyFalsy, hpre]
  · rfl

/-- Witness for C8 at the tags of the end-to-end scenario. -/
theorem c8_range_construction_witness :
    get_commits_cmd (some (("v1.0.0"))) (("v1.1.0"))
        = [("git"), ("log"), ("--pretty=format:%h|%s|%b|||"),
            ("v1.0.0") ++ ("..") ++ ("v1.1.0")]
      ∧ get_commits_cmd none (("v1.1.0"))
        = [("git"), ("log"), ("--pretty=format:%h|%s|%b|||"), ("v1.1.0")] :=
  c8_range_construction (("v1.0.0")) (("v1.1.0")) (by decide)

/-- When no character of `a` is a pipe, the first pipe of `a ++ '|' :: r`
is exactly the displayed one. -/
theorem splitFirstPipe_append (a r : List Char) (ha : '|' ∉ a) :
    splitFirstPipe (a ++ '|' :: r) = some (a, r) := by
  induction a with
  | nil => simp [splitFirstPipe]
  | cons c cs ih =>
    have hc : ¬ c = '|' := fun h => ha (by simp [h])
    have hcs : '|' ∉ cs := fun h => ha (List.mem_cons_of_mem _ h)
    simp [splitFirstPipe, hc, ih hcs]

/-- `split("|", 2)` on a block with pipe-free first two fields returns the
three fields, the last kept verbatim. -/
theorem split2_three (a b c : List Char) (ha : '|' ∉ a) (hb : '|' ∉ b) :
    split2 (a ++ '|' :: (b ++ '|' :: c)) = [a, b, c] := by
  simp [split2, splitFirstPipe_append a (b ++ '|' :: c) ha,
    splitFirstPipe_append b c hb]

/-- Claim C9: each block is split on `"|"` with a limit of two splits, so
pipe characters after the second delimiter stay verbatim in the body field:
for a stripped block `a|b|c` whose first two fields are pipe-free and whose
subject is not a merge subject, the parser returns the record whose body is
everything after the second pipe (stripped), however many pipes `c`
contains. -/
theorem c9_body_preserves_pipes (a b c : List Char) (ha : '|' ∉ a) (hb : '|' ∉ b)
    (htrim : trimChars (a ++ '|' :: (b ++ '|' :: c)) = a ++ '|' :: (b ++ '|' :: c))
    (hm : pyStartsWith mergeWord (trimChars b) = false) :
    parseBlockL (a ++ '|' :: (b ++ '|' :: c))
      = some { hash := String.mk (trimChars a),
               subject := String.mk (trimChars b),
               body := String.mk (trimChars c) } := by
  unfold parseBlockL
  rw [htrim]
  have hne : a ++ '|' :: (b ++ '|' :: c) ≠ [] := by simp
  rw [if_neg hne, split2_three a b c ha hb]
  simp [hm]

/-- Witness for C9: the body `x|y` keeps its interior pipe. -/
theorem c9_body_preserves_pipes_witness :
    parseBlockL ((("h1").data) ++ '|' :: ((("Add stuff").data) ++ '|' :: (("x|y").data)))
      = some { hash := String.mk (trimChars (("h1").data)),
               subject := String.mk (trimChars (("Add stuff").data)),
               body := String.mk (trimChars (("x|y").data)) } :=
  c9_body_preserves_pipes (("h1").data) (("Add stuff").data) (("x|y").data)
    (by decide) (by decide) (by decide) (by decide)

/-- A list is a starting segment of itself followed by anything. -/
theorem pyStartsWith_refl_append (p u : List Char) :
    pyStartsWith p (p ++ u) = true := by
  induction p with
  | nil => rfl
  | cons c cs ih => simp [pyStartsWith, ih]

/-- A list is a starting segment of itself. -/
theorem pyStartsWith_self (p : List Char) : pyStartsWith p p = true := by
  simpa using pyStartsWith_refl_append p []

/-- A starting segment occurs as a substring. -/
theorem hasSub_start {pat s : List Char} (h : pyStartsWith pat s = true) :
    hasSub pat s = true := by
  cases s with
  | nil => simpa [hasSub] using h
  | cons c cs => simp [hasSub, h]

/-- Substring occurrence survives prepending. -/
theorem hasSub_append_left (s : List Char) {pat t : List Char}
    (h : hasSub pat t = true) : hasSub pat (s ++ t) = true := by
  induction s with
  | nil => simpa using h
  | cons c cs ih => simp [hasSub, ih]

/-- A pattern occurs at the front of `pat ++ u`. -/
theorem hasSub_here (pat u : List Char) : hasSub pat (pat ++ u) = true :=
  hasSub_start (pyStartsWith_refl_append pat u)

/-- A pattern occurs in itself. -/
theorem hasSub_self (pat : List Char) : hasSub pat pat = true :=
  hasSub_start (pyStartsWith_self pat)

/-- A string of the shape `(s ++ pat) ++ u` contains `pat`. -/
theorem strContains_mid (s pat u : String) :
    strContains ((s ++ pat) ++ u) pat = true := by
  show hasSub pat.data ((s ++ pat) ++ u).data = true
  rw [String.data_append, String.data_append, List.append_assoc]
  exact hasSub_append_left _ (hasSub_here _ _)

/-- Claim C3 counterexample: with no previous tag, the final notes can still
contain the substring `"Full Changelog"` when a commit subject mentions it,
so "contains iff a previous tag exists" fails in the only-if direction. -/
theorem c3_counterexample :
    mainRun envC3 rawC3 none
        = RunResult.output (("## Changes\n\n- See the Full Changelog\n"))
      ∧ strContains (("## Changes\n\n- See the Full Changelog\n"))
          (("Full Changelog")) = true
      ∧ envC3.PREV_TAG = none := by
  decide

/-- Claim C3 as amended: when a previous tag exists, both the AI path and
the fallback path append the comparison footer, so the notes contain
`"Full Changelog"` and the full comparison link with the literal tag
values; when no previous tag exists, neither path appends anything — the
output is exactly the stripped AI text, resp. the plain bullet list —
though that content may itself happen to contain the substring. -/
theorem c3_amended_footer_iff_prev (pre repo cur aiText : String)
    (commits : List Commit) :
    strContains (aiNotes aiText (some pre) repo cur) (("Full Changelog")) = true
      ∧ strContains (fallbackNotes commits (some pre) repo cur)
          (("Full Changelog")) = true
      ∧ strContains (aiNotes aiText (some pre) repo cur)
          (("**Full Changelog**: https://github.com/") ++ repo
            ++ ("/compare/") ++ pre ++ ("...") ++ cur) = true
      ∧ strContains (fallbackNotes commits (some pre) repo cur)
          (("**Full Changelog**: https://github.com/") ++ repo
            ++ ("/compare/") ++ pre ++ ("...") ++ cur) = true
      ∧ aiNotes aiText none repo cur = String.mk (trimChars aiText.data)
      ∧ fallbackNotes commits none repo cur = changesList commits := by
  refine ⟨?_, ?_, ?_, ?_, rfl, rfl⟩
  · have e1 : aiNotes aiText (some pre) repo cur
        = ((String.mk (trimChars aiText.data) ++ ("\n\n---\n\n**")) ++ ("Full Changelog"))
          ++ (("**: https://github.com/") ++ repo ++ ("/compare/") ++ pre
              ++ ("...") ++ cur) := by
      apply String.ext
      simp [aiNotes, String.data_append]
    rw [e1]
    exact strContains_mid _ _ _
  · have e2 : fallbackNotes commits (some pre) repo cur
        = ((changesList commits ++ ("\n\n**")) ++ ("Full Changelog"))
          ++ (("**: https://github.com/") ++ repo ++ ("/compare/") ++ pre
              ++ ("...") ++ cur) := by
      apply String.ext
      simp [fallbackNotes, String.data_append]
    rw [e2]
    exact strContains_mid _ _ _
  · have e3 : aiNotes aiText (some pre) repo cur
        = ((String.mk (trimChars aiText.data) ++ ("\n\n---\n\n"))
            ++ (("**Full Changelog**: https://github.com/") ++ repo
                ++ ("/compare/") ++ pre ++ ("...") ++ cur))
          ++ ("") := by
      apply String.ext
      simp [aiNotes, String.data_append]
    rw [e3]
    exact strContains_mid _ _ _
  · have e4 : fallbackNotes commits (some pre) repo cur
        = ((changesList commits ++ ("\n\n"))
            ++ (("**Full Changelog**: https://github.com/") ++ repo
                ++ ("/compare/") ++ pre ++ ("...") ++ cur))
          ++ ("") := by
      apply String.ext
      simp [fallbackNotes, String.data_append]
    rw [e4]
    exact strContains_mid _ _ _
